import Mathlib

/-!
Verification of the note-synchronization store of the `write` application.

The store source (`src/stores/notes-store.ts`) is shallowly embedded here.
JavaScript strings are modelled as lists of characters (`Str`); the
JavaScript operations used by the source (`split`, `join`, `startsWith`,
`slice`, `findIndex`, `filter`, `find` with in-place mutation) are modelled
by the corresponding executable list functions below.  The store's
asynchronous actions are modelled as functions that take, for every `await`
suspension point, an interleaving function (the effect of other event-loop
tasks that run while the request is in flight) and the backend's reply, and
return the final state together with the list of backend requests the
action issued, in order.
-/

/-- JavaScript strings are modelled as lists of characters. -/
abbrev Str := List Char

/-- Coercion from Lean string literals to the character-list model. -/
def str (s : String) : Str := s.data

/-- JavaScript `s.split(sep)` for a single-character separator. -/
def splitOnChar (sep : Char) : Str → List Str
  | [] => [[]]
  | c :: cs =>
    if c = sep then [] :: splitOnChar sep cs
    else
      match splitOnChar sep cs with
      | [] => [[c]]
      | l :: ls => (c :: l) :: ls

/-- `content.split("\n")` from the source. -/
def splitLines (s : Str) : List Str := splitOnChar '\n' s

/-- `lines.join("\n")` from the source. -/
def joinLines : List Str → Str
  | [] => []
  | [l] => l
  | l :: l' :: ls => l ++ '\n' :: joinLines (l' :: ls)

/-- The two-character title marker `"# "`. -/
def titleMarker : Str := ['#', ' ']

/-- `line.startsWith("# ")` from the source. -/
def isTitleLine (l : Str) : Bool := titleMarker.isPrefixOf l

/-- JavaScript `lines.findIndex(...)` specialised to the title-line test. -/
def findTitleIdx : List Str → Option Nat
  | [] => none
  | l :: ls => if isTitleLine l then some 0 else (findTitleIdx ls).map (· + 1)

/-- `parseContent` from `notes-store.ts`: split into lines, find the first
line starting with `"# "`; if none, title is empty and body is the whole
content; otherwise the title is that line with the marker sliced off and
the body is every other line rejoined with newlines. -/
def parseContent (content : Str) : Str × Str :=
  let lines := splitLines content
  match findTitleIdx lines with
  | none => ([], content)
  | some i =>
    ((lines.getD i []).drop 2,
     joinLines (lines.take i ++ lines.drop (i + 1)))

/-- `buildContent` from `notes-store.ts`: the template
string `# ${title}\n${body}`. -/
def buildContent (title body : Str) : Str :=
  titleMarker ++ title ++ '\n' :: body

/-! ## The store state (`notes-store.ts`) -/

/-- `NoteEntry` from `notes-store.ts`. -/
structure NoteEntry where
  name : Str
  path : Str
  modified : Nat
  title : Str
deriving DecidableEq, Repr

/-- `NoteContent` (the active document buffer) from `notes-store.ts`. -/
structure NoteContent where
  title : Str
  body : Str
  isDirty : Bool
deriving DecidableEq, Repr

/-- `Workspace` from `notes-store.ts`. -/
structure Workspace where
  id : Str
  name : Str
  shortcut : Option Str
deriving DecidableEq, Repr

/-- The fields of `NotesState` that the verified actions touch. -/
structure NotesState where
  workspaces : List Workspace
  activeWorkspaceId : Option Str
  notes : List NoteEntry
  selectedPath : Option Str
  noteContent : Option NoteContent
deriving DecidableEq, Repr

/-- The reserved identifier marker `"temp-"` from `` `temp-${Date.now()}` ``. -/
def tempMarker : Str := ['t', 'e', 'm', 'p', '-']

/-- `path.startsWith("temp-")`. -/
def isCreatingPath (p : Str) : Bool := tempMarker.isPrefixOf p

/-- The `isCreating` getter: `selectedPath?.startsWith("temp-") ?? false`. -/
def isCreating (st : NotesState) : Bool :=
  match st.selectedPath with
  | some p => isCreatingPath p
  | none => false

/-- `newPath.split("/").pop()!`: the last segment of a slash-separated
identifier. -/
def lastSegment (p : Str) : Str := (splitOnChar '/' p).getLastD []

/-- In-place mutation of the first entry matching a predicate, as produced
by `state.notes.find(...)` followed by field assignments (and by the
`findIndex` / index-assignment pattern in `createNote`). -/
def updateFirst (p : α → Bool) (f : α → α) : List α → List α
  | [] => []
  | x :: xs => if p x then f x :: xs else x :: updateFirst p f xs

/-- The whole mutable world: the zustand store state, the module-level
`saveTimeout` variable, and the host's pending debounce timers (a timer id
is in `pendingTimers` from `setTimeout` until it fires or is cancelled by
`clearTimeout`). -/
structure Sys where
  st : NotesState
  saveTimeout : Option Nat
  pendingTimers : List Nat
  nextTimerId : Nat
deriving DecidableEq, Repr

/-- Backend requests issued by the modelled actions, in issue order. -/
inductive Req where
  | writeNote (path content : Str)
  | readNote (path : Str)
  | createNote
  | setActiveWorkspace (id : Str)
deriving DecidableEq, Repr

/-- A backend reply: a resolved string value, or a rejection. -/
inductive Reply where
  | ok (val : Str)
  | err
deriving DecidableEq, Repr

/-- `schedulePersist`: `clearTimeout(saveTimeout)` when set, then
`saveTimeout = setTimeout(flush, 800)`. -/
def schedulePersist (s : Sys) : Sys :=
  let pending :=
    match s.saveTimeout with
    | some tid => s.pendingTimers.filter (fun t => t != tid)
    | none => s.pendingTimers
  { s with
    pendingTimers := pending ++ [s.nextTimerId]
    saveTimeout := some s.nextTimerId
    nextTimerId := s.nextTimerId + 1 }

/-- The state update of `setTitle`: mutate the buffer's title and dirty
flag, and mirror `title || "New Page"` into the first directory entry whose
path equals `selectedPath`. -/
def setTitleState (t : Str) (st : NotesState) : NotesState :=
  let st' := { st with
    noteContent := st.noteContent.map (fun nc => { nc with title := t, isDirty := true }) }
  match st.selectedPath with
  | some sp =>
    { st' with
      notes := updateFirst (fun n => n.path == sp)
        (fun n => { n with title := if t = [] then str "New Page" else t }) st'.notes }
  | none => st'

/-- `setTitle`: update the state, then `if (!get().isCreating) schedulePersist`. -/
def setTitle (t : Str) (s : Sys) : Sys :=
  let s' := { s with st := setTitleState t s.st }
  if isCreating s'.st then s' else schedulePersist s'

/-- The state update of `setBody`: mutate the buffer's body and dirty flag. -/
def setBodyState (b : Str) (st : NotesState) : NotesState :=
  { st with
    noteContent := st.noteContent.map (fun nc => { nc with body := b, isDirty := true }) }

/-- `setBody`: update the state, then `if (!get().isCreating) schedulePersist`. -/
def setBody (b : Str) (s : Sys) : Sys :=
  let s' := { s with st := setBodyState b s.st }
  if isCreating s'.st then s' else schedulePersist s'

/-- The synchronous first half of `flush`: the guard
`if (!noteContent || !selectedPath || !noteContent.isDirty || isCreating) return`
followed by `buildContent`.  Returns the `write_note` request's path and
content when a write is issued, `none` when flush is a no-op. -/
def flushRequest (st : NotesState) : Option (Str × Str) :=
  match st.noteContent, st.selectedPath with
  | some nc, some p =>
    if nc.isDirty && !isCreatingPath p then
      some (p, buildContent nc.title nc.body)
    else none
  | _, _ => none

/-- The success continuation of `flush`, run on the state current at resume
time with the `selectedPath` captured before the await: clear the dirty
flag, and if the backend returned a different path, move the selection to
it and update the first matching directory entry's path and name. -/
def flushResumeOk (oldPath newPath : Str) (st : NotesState) : NotesState :=
  let st' := { st with
    noteContent := st.noteContent.map (fun nc => { nc with isDirty := false }) }
  if newPath = oldPath then st'
  else
    { st' with
      selectedPath := some newPath
      notes := updateFirst (fun n => n.path == oldPath)
        (fun n => { n with path := newPath, name := lastSegment newPath }) st'.notes }

/-- A full run of `flush`.  `mid` is the interleaving that occurs while the
`write_note` request is in flight (other event-loop tasks running during
the await); `r` is the backend's reply.  The catch branch only logs, so on
rejection the resume changes nothing. -/
def flushRun (mid : Sys → Sys) (r : Reply) (s : Sys) : Sys × List Req :=
  match flushRequest s.st with
  | none => (s, [])
  | some (p, c) =>
    let s' := mid s
    match r with
    | .ok newPath => ({ s' with st := flushResumeOk p newPath s'.st }, [.writeNote p c])
    | .err => (s', [.writeNote p c])

/-- The host fires pending debounce timer `tid`; its callback is
`store.getState().flush()`. -/
def fireTimer (tid : Nat) (mid : Sys → Sys) (r : Reply) (s : Sys) : Sys × List Req :=
  if s.pendingTimers.contains tid then
    flushRun mid r { s with pendingTimers := s.pendingTimers.filter (fun t => t != tid) }
  else (s, [])

/-- A full run of `selectNote(path)`: `await flush()`, then request
`read_note`; on success decode and install the buffer and selection; on
failure only log.  `midF` interleaves during the flush's write, `midR`
during the read. -/
def selectNoteRun (path : Str) (midF midR : Sys → Sys) (fr rr : Reply)
    (s : Sys) : Sys × List Req :=
  let fres := flushRun midF fr s
  match rr with
  | .ok text =>
    let s2 := midR fres.1
    let tb := parseContent text
    ({ s2 with st := { s2.st with
        selectedPath := some path
        noteContent := some ⟨tb.1, tb.2, false⟩ } },
     fres.2 ++ [.readNote path])
  | .err => (midR fres.1, fres.2 ++ [.readNote path])

/-- The temporary identifier `` `temp-${Date.now()}` ``. -/
def tempPathOf (now : Nat) : Str := tempMarker ++ Nat.toDigits 10 now

/-- The success continuation of `createNote`: rewrite the temporary entry's
path and name to the real path, and set the selection to the real path. -/
def createResumeOk (tempPath realPath : Str) (st : NotesState) : NotesState :=
  { st with
    notes := updateFirst (fun n => n.path == tempPath)
      (fun n => { n with path := realPath, name := lastSegment realPath }) st.notes
    selectedPath := some realPath }

/-- The failure continuation of `createNote`: drop the temporary entry and
clear selection and buffer. -/
def createResumeErr (tempPath : Str) (st : NotesState) : NotesState :=
  { st with
    notes := st.notes.filter (fun n => n.path != tempPath)
    selectedPath := none
    noteContent := none }

/-- The synchronous block of `createNote` after its flush: unshift the
temporary entry, select it, and install an empty clean buffer. -/
def insertTemp (now : Nat) (st : NotesState) : NotesState :=
  { st with
    notes := ⟨tempPathOf now, tempPathOf now, now, str "New Page"⟩ :: st.notes
    selectedPath := some (tempPathOf now)
    noteContent := some ⟨[], [], false⟩ }

/-- A full run of `createNote()`: `await flush()`, synchronously install the
temporary entry, selection and empty buffer, then request `create_note`;
`midC` interleaves while the creation request is in flight. -/
def createNoteRun (now : Nat) (midF midC : Sys → Sys) (fr cr : Reply)
    (s : Sys) : Sys × List Req :=
  let fres := flushRun midF fr s
  let s3 := midC { fres.1 with st := insertTemp now fres.1.st }
  match cr with
  | .ok realPath =>
    ({ s3 with st := createResumeOk (tempPathOf now) realPath s3.st },
     fres.2 ++ [.createNote])
  | .err =>
    ({ s3 with st := createResumeErr (tempPathOf now) s3.st },
     fres.2 ++ [.createNote])

/-- A full run of `switchWorkspace(id)`: `await flush()`, then request
`set_active_workspace`; on success set the active workspace and clear
selection and buffer; a rejection propagates, leaving the state as it was
at the suspension point. -/
def switchWorkspaceRun (wid : Str) (midF midW : Sys → Sys) (fr wr : Reply)
    (s : Sys) : Sys × List Req :=
  let fres := flushRun midF fr s
  let s2 := midW fres.1
  match wr with
  | .ok _ =>
    ({ s2 with st := { s2.st with
        activeWorkspaceId := some wid
        selectedPath := none
        noteContent := none } },
     fres.2 ++ [.setActiveWorkspace wid])
  | .err => (s2, fres.2 ++ [.setActiveWorkspace wid])

/-- The module-level timer discipline: the host holds no pending debounce
timer, or exactly the one recorded in `saveTimeout`. -/
def timerInv (s : Sys) : Prop :=
  match s.saveTimeout with
  | none => s.pendingTimers = []
  | some tid => s.pendingTimers = [] ∨ s.pendingTimers = [tid]

/-! ## Concrete states used by witnesses and counterexamples -/

/-- A loaded directory entry. -/
def entryA : NoteEntry := ⟨str "a.md", str "/n/a.md", 0, str "A"⟩

/-- `entryA` selected, buffer dirty. -/
def sysA : Sys :=
  ⟨⟨[], none, [entryA], some (str "/n/a.md"), some ⟨str "T", str "B", true⟩⟩,
   none, [], 0⟩

/-- `entryA` selected, buffer clean, no timer pending. -/
def sysClean : Sys :=
  ⟨⟨[], none, [entryA], some (str "/n/a.md"), some ⟨str "T", str "B0", false⟩⟩,
   none, [], 0⟩

/-- The state `setBody "b1" sysClean`: dirty buffer, debounce timer 0
pending. -/
def sysDirty1 : Sys :=
  ⟨⟨[], none, [entryA], some (str "/n/a.md"), some ⟨str "T", str "b1", true⟩⟩,
   some 0, [0], 1⟩

/-- Directory loaded, nothing selected. -/
def sysNoSel : Sys := ⟨⟨[], none, [entryA], none, none⟩, none, [], 0⟩

/-- The mid-creation state reached by `createNote` at `now = 7` from
`sysNoSel`, just before the `create_note` reply arrives. -/
def sysMid7 : Sys :=
  ⟨⟨[], none,
    [⟨str "temp-7", str "temp-7", 7, str "New Page"⟩, entryA],
    some (str "temp-7"), some ⟨[], [], false⟩⟩,
   none, [], 0⟩

/-- The interleaving used by the C8 counterexample: while `create_note` is
in flight, a `selectNote` of `entryA` runs to completion. -/
def selectOther : Sys → Sys :=
  fun x => (selectNoteRun (str "/n/a.md") id id Reply.err (Reply.ok (str "# A\nbody")) x).1

/-! ## Codec lemmas -/

theorem splitOnChar_ne_nil (sep : Char) (s : Str) : splitOnChar sep s ≠ [] := by
  induction s with
  | nil => simp [splitOnChar]
  | cons c cs ih =>
    simp only [splitOnChar]
    split
    · simp
    · match h : splitOnChar sep cs with
      | [] => simp
      | l :: ls => simp

theorem joinLines_splitLines (s : Str) : joinLines (splitLines s) = s := by
  induction s with
  | nil => rfl
  | cons c cs ih =>
    simp only [splitLines, splitOnChar] at *
    by_cases hc : c = '\n'
    · subst hc
      simp only [if_pos rfl]
      match h : splitOnChar '\n' cs with
      | [] => exact absurd h (splitOnChar_ne_nil '\n' cs)
      | l :: ls =>
        rw [h] at ih
        simp only [joinLines]
        rw [ih]
        rfl
    · rw [if_neg hc]
      match h : splitOnChar '\n' cs with
      | [] => exact absurd h (splitOnChar_ne_nil '\n' cs)
      | [l] =>
        rw [h] at ih
        simpa [joinLines] using congrArg (c :: ·) ih
      | l :: l' :: ls =>
        rw [h] at ih
        simp only [joinLines] at ih ⊢
        rw [List.cons_append, ih]

theorem splitLines_append_newline (u v : Str) (hu : ∀ c ∈ u, c ≠ '\n') :
    splitLines (u ++ '\n' :: v) = u :: splitLines v := by
  induction u with
  | nil => simp [splitLines, splitOnChar]
  | cons c cs ih =>
    have hc : c ≠ '\n' := hu c (by simp)
    have ih' := ih (fun x hx => hu x (by simp [hx]))
    simp only [splitLines, splitOnChar, List.cons_append] at *
    rw [if_neg hc]
    rw [show cs.append ('\n' :: v) = cs ++ '\n' :: v from rfl, ih']

theorem isTitleLine_marker_append (t : Str) :
    isTitleLine (titleMarker ++ t) = true := by
  simp [isTitleLine, titleMarker, List.isPrefixOf]

theorem findTitleIdx_eq_none (ls : List Str)
    (h : ∀ l ∈ ls, isTitleLine l = false) : findTitleIdx ls = none := by
  induction ls with
  | nil => rfl
  | cons l ls ih =>
    simp only [findTitleIdx, h l (by simp), if_neg]
    rw [ih (fun x hx => h x (by simp [hx]))]
    rfl

theorem findTitleIdx_append (pre : List Str) (l : Str) (post : List Str)
    (hpre : ∀ x ∈ pre, isTitleLine x = false) (hl : isTitleLine l = true) :
    findTitleIdx (pre ++ l :: post) = some pre.length := by
  induction pre with
  | nil => simp [findTitleIdx, hl]
  | cons q pre ih =>
    have hq : isTitleLine q = false := hpre q (by simp)
    simp only [List.cons_append, findTitleIdx, hq, Bool.false_eq_true, if_false]
    rw [show pre.append (l :: post) = pre ++ l :: post from rfl,
      ih (fun x hx => hpre x (by simp [hx]))]
    simp

theorem getD_append_cons (pre : List Str) (x : Str) (post : List Str) :
    (pre ++ x :: post).getD pre.length [] = x := by
  induction pre with
  | nil => simp [List.getD]
  | cons q pre ih => simpa [List.getD] using ih

/-! ## C5: codec round-trip -/

/-- C5 counterexample: the claim quantifies over every `(title, body)` pair
whose title has no line starting with the title marker; the pair
`("A\nB", "C")` satisfies that hypothesis, yet the round-trip through the
codec does not restore it (the newline inside the title shifts a title
fragment into the body). -/
theorem roundtrip_fails_on_newline_title :
    (∀ l ∈ splitLines (str "A\nB"), isTitleLine l = false) ∧
    parseContent (buildContent (str "A\nB") (str "C")) ≠ (str "A\nB", str "C") ∧
    parseContent (buildContent (str "A\nB") (str "C")) = (str "A", str "B\nC") := by
  refine ⟨by decide, by decide, by decide⟩

/-- C5 (amended): for every `(title, body)` pair whose title contains no
newline character, `parseContent (buildContent title body) = (title, body)`,
with the body preserved exactly, including leading and trailing blank
lines. -/
theorem parse_build_roundtrip (t b : Str) (h : ∀ c ∈ t, c ≠ '\n') :
    parseContent (buildContent t b) = (t, b) := by
  have hm : ∀ c ∈ titleMarker ++ t, c ≠ '\n' := by
    intro c hc
    rcases List.mem_append.1 hc with hc | hc
    · fin_cases hc <;> decide
    · exact h c hc
  have hb : buildContent t b = (titleMarker ++ t) ++ '\n' :: b := by
    simp [buildContent]
  rw [parseContent, hb, splitLines_append_newline _ _ hm]
  have hidx : findTitleIdx ((titleMarker ++ t) :: splitLines b) = some 0 := by
    simp [findTitleIdx, isTitleLine_marker_append]
  rw [hidx]
  simp only [List.getD_cons_zero, List.take_zero, List.drop_succ_cons,
    List.drop_zero, List.nil_append]
  rw [joinLines_splitLines]
  show (List.drop 2 ('#' :: ' ' :: t), b) = (t, b)
  rfl

/-- C5 witness: round-trip at a concrete pair whose body has leading and
trailing blank lines. -/
theorem parse_build_roundtrip_witness :
    parseContent (buildContent (str "My Title") (str "\n\nbody\n\n")) =
      (str "My Title", str "\n\nbody\n\n") :=
  parse_build_roundtrip (str "My Title") (str "\n\nbody\n\n") (by decide)

/-! ## C9: decoding -/

/-- C9: `parseContent` returns as title the remainder (marker stripped) of
the first line starting with `"# "`, and as body all other lines rejoined
with newline in their original order with only that one title line removed;
if no line starts with the marker, the title is empty and the body is the
entire input unchanged.  The last conjunct checks the spec's concrete
example `decode("# A\n# B\nC")`. -/
theorem parseContent_spec (content : Str) :
    ((∀ l ∈ splitLines content, isTitleLine l = false) →
      parseContent content = ([], content)) ∧
    (∀ pre t post,
      splitLines content = pre ++ (titleMarker ++ t) :: post →
      (∀ l ∈ pre, isTitleLine l = false) →
      parseContent content = (t, joinLines (pre ++ post))) ∧
    parseContent (str "# A\n# B\nC") = (str "A", str "# B\nC") := by
  refine ⟨fun h => ?_, fun pre t post hsplit hpre => ?_, by decide⟩
  · rw [parseContent, findTitleIdx_eq_none _ h]
  · rw [parseContent, hsplit,
      findTitleIdx_append pre _ post hpre (isTitleLine_marker_append t)]
    dsimp only
    rw [getD_append_cons]
    have htake : (pre ++ (titleMarker ++ t) :: post).take pre.length = pre :=
      List.take_left pre _
    have hdrop : (pre ++ (titleMarker ++ t) :: post).drop (pre.length + 1) = post := by
      rw [List.append_cons pre _ post]
      have hlen : (pre ++ [titleMarker ++ t]).length = pre.length + 1 := by simp
      rw [← hlen]
      exact List.drop_left (pre ++ [titleMarker ++ t]) post
    rw [htake, hdrop]
    show (List.drop 2 ('#' :: ' ' :: t), joinLines (pre ++ post)) = _
    rfl

/-- C9 witness: the characterization applied at a concrete input whose
title line is preceded by a body line. -/
theorem parseContent_spec_witness :
    parseContent (str "x\n# T\nbody") = (str "T", str "x\nbody") := by
  have h := (parseContent_spec (str "x\n# T\nbody")).2.1
    [str "x"] (str "T") [str "body"] (by decide) (by decide)
  exact h.trans (by decide)

/-! ## Store helper lemmas -/

theorem updateFirst_append (p : α → Bool) (f : α → α) (pre : List α) (e : α)
    (post : List α) (he : p e = true) (hpre : ∀ x ∈ pre, p x = false) :
    updateFirst p f (pre ++ e :: post) = pre ++ f e :: post := by
  induction pre with
  | nil => simp [updateFirst, he]
  | cons q pre ih =>
    have hq : p q = false := hpre q (by simp)
    simp only [List.cons_append, updateFirst, hq, Bool.false_eq_true, if_false]
    rw [show pre.append (e :: post) = pre ++ e :: post from rfl,
      ih (fun x hx => hpre x (by simp [hx]))]

theorem isPrefixOf_append_self (u v : List Char) : u.isPrefixOf (u ++ v) = true := by
  induction u with
  | nil => simp [List.isPrefixOf]
  | cons c cs ih => simp [List.isPrefixOf, ih]

theorem isCreatingPath_tempPathOf (now : Nat) :
    isCreatingPath (tempPathOf now) = true := by
  simp [isCreatingPath, tempPathOf, isPrefixOf_append_self]

theorem flushRequest_some (st : NotesState) (nc : NoteContent) (p : Str)
    (h1 : st.noteContent = some nc) (h2 : st.selectedPath = some p)
    (h3 : nc.isDirty = true) (h4 : isCreatingPath p = false) :
    flushRequest st = some (p, buildContent nc.title nc.body) := by
  simp [flushRequest, h1, h2, h3, h4]

theorem flushRequest_none_of_creating (st : NotesState)
    (h : isCreating st = true) : flushRequest st = none := by
  match hnc : st.noteContent, hsel : st.selectedPath with
  | none, _ => simp [flushRequest, hnc]
  | some nc, none => simp [flushRequest, hnc, hsel]
  | some nc, some p =>
    have hp : isCreatingPath p = true := by
      unfold isCreating at h
      rw [hsel] at h
      simpa using h
    simp [flushRequest, hnc, hsel, hp]

/-! ## C4: flush -/

/-- C4: `flush()` is a no-op when there is no active buffer, no selection,
the buffer is clean, or the document is in the CREATING sub-state; otherwise
it issues exactly one `write_note` request carrying the current path and the
encoded `(title, body)`, and on success clears the dirty flag and, when the
backend returned a different path, moves the selection to it and rewrites
the matching directory entry's path and display name. -/
theorem flush_spec (s : Sys) (r : Reply) :
    (s.st.noteContent = none → flushRun id r s = (s, [])) ∧
    (s.st.selectedPath = none → flushRun id r s = (s, [])) ∧
    (∀ nc, s.st.noteContent = some nc → nc.isDirty = false →
      flushRun id r s = (s, [])) ∧
    (isCreating s.st = true → flushRun id r s = (s, [])) ∧
    (∀ nc p, s.st.noteContent = some nc → s.st.selectedPath = some p →
      nc.isDirty = true → isCreatingPath p = false →
      (flushRun id r s).2 = [Req.writeNote p (buildContent nc.title nc.body)] ∧
      (∀ np, r = Reply.ok np →
        (flushRun id r s).1.st.noteContent = some ⟨nc.title, nc.body, false⟩ ∧
        (flushRun id r s).1.saveTimeout = s.saveTimeout ∧
        (flushRun id r s).1.pendingTimers = s.pendingTimers ∧
        (np = p → (flushRun id r s).1.st =
          { s.st with noteContent := some ⟨nc.title, nc.body, false⟩ }) ∧
        (np ≠ p →
          (flushRun id r s).1.st.selectedPath = some np ∧
          ∀ pre e post, s.st.notes = pre ++ e :: post → e.path = p →
            (∀ x ∈ pre, x.path ≠ p) →
            (flushRun id r s).1.st.notes =
              pre ++ { e with path := np, name := lastSegment np } :: post))) := by
  refine ⟨fun h => ?_, fun h => ?_, fun nc h hd => ?_, fun h => ?_,
    fun nc p h1 h2 h3 h4 => ?_⟩
  · simp [flushRun, flushRequest, h]
  · cases hnc : s.st.noteContent <;> simp [flushRun, flushRequest, hnc, h]
  · cases hsel : s.st.selectedPath <;> simp [flushRun, flushRequest, h, hsel, hd]
  · simp [flushRun, flushRequest_none_of_creating _ h]
  · have hreq := flushRequest_some s.st nc p h1 h2 h3 h4
    refine ⟨by simp [flushRun, hreq]; cases r <;> simp, fun np hr => ?_⟩
    subst hr
    have hok : flushRun id (Reply.ok np) s =
        ({ s with st := flushResumeOk p np s.st }, [Req.writeNote p (buildContent nc.title nc.body)]) := by
      simp [flushRun, hreq]
    rw [hok]
    refine ⟨?_, rfl, rfl, fun hnp => ?_, fun hnp => ⟨?_, ?_⟩⟩
    · by_cases hnp : np = p <;> simp [flushResumeOk, hnp, h1]
    · simp [flushResumeOk, hnp, h1]
    · simp [flushResumeOk, hnp]
    · intro pre e post hnotes he hpre
      have hbeq : (e.path == p) = true := beq_iff_eq.mpr he
      have hbpre : ∀ x ∈ pre, (x.path == p) = false :=
        fun x hx => beq_eq_false_iff_ne.mpr (hpre x hx)
      simp only [flushResumeOk, if_neg hnp]
      simp only [hnotes]
      exact updateFirst_append _ _ pre e post hbeq hbpre

/-- C4 witness: a dirty selected buffer flushed with a backend rename. -/
theorem flush_spec_witness :
    (flushRun id (Reply.ok (str "/n/b.md")) sysA).2 =
      [Req.writeNote (str "/n/a.md") (str "# T\nB")] ∧
    (flushRun id (Reply.ok (str "/n/b.md")) sysA).1.st.selectedPath =
      some (str "/n/b.md") ∧
    (flushRun id (Reply.ok (str "/n/b.md")) sysA).1.st.notes =
      [⟨str "b.md", str "/n/b.md", 0, str "A"⟩] ∧
    (flushRun id (Reply.ok (str "/n/b.md")) sysA).1.st.noteContent =
      some ⟨str "T", str "B", false⟩ := by
  have h := (flush_spec sysA (Reply.ok (str "/n/b.md"))).2.2.2.2
    ⟨str "T", str "B", true⟩ (str "/n/a.md") rfl rfl rfl (by decide)
  have h2 := h.2 (str "/n/b.md") rfl
  refine ⟨h.1.trans (by decide), (h2.2.2.2.2 (by decide)).1, ?_, h2.1⟩
  have h3 := (h2.2.2.2.2 (by decide)).2 [] entryA [] rfl rfl (by simp)
  exact h3.trans (by decide)

/-! ## C7: write failure -/

/-- C7: when the `write_note` issued by `flush` fails, the whole system
state is left exactly as it was — the buffer remains dirty with the same
title and body, the selection and directory are untouched, and no retry
timer is scheduled — and the only request issued was the single failed
write. -/
theorem flush_failure_spec (s : Sys) (nc : NoteContent) (p : Str)
    (h1 : s.st.noteContent = some nc) (h2 : s.st.selectedPath = some p)
    (h3 : nc.isDirty = true) (h4 : isCreatingPath p = false) :
    flushRun id Reply.err s =
      (s, [Req.writeNote p (buildContent nc.title nc.body)]) ∧
    (flushRun id Reply.err s).1.st.noteContent = some nc := by
  have hreq := flushRequest_some s.st nc p h1 h2 h3 h4
  refine ⟨by simp [flushRun, hreq], ?_⟩
  simp [flushRun, hreq, h1]

/-- C7 witness: a failed write at a concrete dirty state changes nothing. -/
theorem flush_failure_spec_witness :
    flushRun id Reply.err sysA =
      (sysA, [Req.writeNote (str "/n/a.md") (str "# T\nB")]) := by
  have h := flush_failure_spec sysA ⟨str "T", str "B", true⟩ (str "/n/a.md")
    rfl rfl rfl (by decide)
  exact h.1.trans (by decide)

/-! ## C10: setTitle -/

theorem setTitle_st (t : Str) (s : Sys) : (setTitle t s).st = setTitleState t s.st := by
  unfold setTitle
  dsimp only
  split <;> rfl

/-- C10: for a selected note, `setTitle` stores the new title verbatim in
the buffer (even the empty string) and marks it dirty, while the matching
directory entry receives the new title when non-empty and the literal
fallback `"New Page"` when it is empty. -/
theorem setTitle_spec (s : Sys) (t : Str) (nc : NoteContent) (p : Str)
    (pre post : List NoteEntry) (e : NoteEntry)
    (h1 : s.st.noteContent = some nc) (h2 : s.st.selectedPath = some p)
    (h3 : s.st.notes = pre ++ e :: post) (he : e.path = p)
    (hpre : ∀ x ∈ pre, x.path ≠ p) :
    (setTitle t s).st.noteContent = some ⟨t, nc.body, true⟩ ∧
    (setTitle t s).st.notes =
      pre ++ { e with title := if t = [] then str "New Page" else t } :: post := by
  rw [setTitle_st]
  constructor
  · simp [setTitleState, h1, h2]
  · simp only [setTitleState, h2]
    rw [h3]
    exact updateFirst_append _ _ pre e post (beq_iff_eq.mpr he)
      (fun x hx => beq_eq_false_iff_ne.mpr (hpre x hx))

/-- C10 witness: setting the empty title at a concrete state stores the
empty title in the buffer and the `"New Page"` fallback in the sidebar
entry. -/
theorem setTitle_spec_witness :
    (setTitle (str "") sysA).st.noteContent = some ⟨str "", str "B", true⟩ ∧
    (setTitle (str "") sysA).st.notes =
      [⟨str "a.md", str "/n/a.md", 0, str "New Page"⟩] := by
  have h := setTitle_spec sysA (str "") ⟨str "T", str "B", true⟩ (str "/n/a.md")
    [] [] entryA rfl rfl rfl rfl (by simp)
  exact ⟨h.1.trans (by decide), h.2.trans (by decide)⟩

/-! ## C8: createNote confirmation -/

/-- C8 counterexample: while `create_note` is in flight, a `selectNote`
moves the selection to `/n/a.md`, which is not the temporary identifier;
when the creation then fails, the catch handler nevertheless clears the
selection and the buffer — the claim's "only if the selection was still
pointing at the temporary identifier" does not hold (and the success
handler likewise overwrites the moved selection with the real path). -/
theorem createNote_resume_unconditional_cex :
    (selectOther sysMid7).st.selectedPath = some (str "/n/a.md") ∧
    some (str "/n/a.md") ≠ some (tempPathOf 7) ∧
    (createNoteRun 7 id selectOther Reply.err Reply.err sysNoSel).1.st =
      createResumeErr (tempPathOf 7) ((selectOther sysMid7).st) ∧
    (createNoteRun 7 id selectOther Reply.err Reply.err sysNoSel).1.st.selectedPath
      = none ∧
    (createNoteRun 7 id selectOther Reply.err Reply.err sysNoSel).1.st.noteContent
      = none ∧
    (createNoteRun 7 id selectOther Reply.err
        (Reply.ok (str "/notes/003-new.md")) sysNoSel).1.st.selectedPath =
      some (str "/notes/003-new.md") := by
  refine ⟨by decide, by decide, by decide, by decide, by decide, by decide⟩

/-- C8 (amended): on success the temporary identifier is replaced by the
real identifier in the matching directory entry and the selection is set to
the real identifier unconditionally; on failure the temporary entry is
removed and the selection and buffer are cleared unconditionally, whether
or not the selection still pointed at the temporary identifier. -/
theorem createNote_confirmation_spec (tp rp : Str) (st : NotesState) :
    (createResumeOk tp rp st).selectedPath = some rp ∧
    (createResumeOk tp rp st).noteContent = st.noteContent ∧
    (∀ pre e post, st.notes = pre ++ e :: post → e.path = tp →
      (∀ x ∈ pre, x.path ≠ tp) →
      (createResumeOk tp rp st).notes =
        pre ++ { e with path := rp, name := lastSegment rp } :: post) ∧
    (createResumeErr tp st).selectedPath = none ∧
    (createResumeErr tp st).noteContent = none ∧
    (createResumeErr tp st).notes = st.notes.filter (fun n => n.path != tp) := by
  refine ⟨rfl, rfl, fun pre e post hn he hpre => ?_, rfl, rfl, rfl⟩
  simp only [createResumeOk]
  rw [hn]
  exact updateFirst_append _ _ pre e post (beq_iff_eq.mpr he)
    (fun x hx => beq_eq_false_iff_ne.mpr (hpre x hx))

/-- C8 witness: the amended behaviour at a concrete mid-creation state. -/
theorem createNote_confirmation_spec_witness :
    (createResumeOk (str "temp-7") (str "/notes/003-new.md") sysMid7.st).selectedPath =
      some (str "/notes/003-new.md") ∧
    (createResumeOk (str "temp-7") (str "/notes/003-new.md") sysMid7.st).notes =
      [⟨str "003-new.md", str "/notes/003-new.md", 7, str "New Page"⟩, entryA] ∧
    (createResumeErr (str "temp-7") sysMid7.st).notes = [entryA] := by
  have h := createNote_confirmation_spec (str "temp-7") (str "/notes/003-new.md")
    sysMid7.st
  refine ⟨h.1, ?_, h.2.2.2.2.2.trans (by decide)⟩
  have h3 := h.2.2.1 [] ⟨str "temp-7", str "temp-7", 7, str "New Page"⟩ [entryA]
    (by decide) rfl (by simp)
  exact h3.trans (by decide)

/-! ## C3: the CREATING sub-state -/

theorem selectedPath_setTitleState (t : Str) (st : NotesState) :
    (setTitleState t st).selectedPath = st.selectedPath := by
  unfold setTitleState
  cases st.selectedPath <;> rfl

theorem isCreating_setTitleState (t : Str) (st : NotesState) :
    isCreating (setTitleState t st) = isCreating st := by
  unfold isCreating
  rw [selectedPath_setTitleState]

theorem isCreating_setBodyState (b : Str) (st : NotesState) :
    isCreating (setBodyState b st) = isCreating st := rfl

theorem setTitle_creating (t : Str) (s : Sys) (h : isCreating s.st = true) :
    setTitle t s = { s with st := setTitleState t s.st } := by
  have hc : isCreating (setTitleState t s.st) = true := by
    rwa [isCreating_setTitleState]
  simp [setTitle, hc]

theorem setBody_creating (b : Str) (s : Sys) (h : isCreating s.st = true) :
    setBody b s = { s with st := setBodyState b s.st } := by
  have hc : isCreating (setBodyState b s.st) = true := by
    rwa [isCreating_setBodyState]
  simp [setBody, hc]

/-- C3 (amended): while the selected identifier carries the temporary
prefix, no flush writes through to the backend (regardless of interleaving
or reply) and `setBody` only accumulates the edit locally with the dirty
flag set, scheduling no debounce timer; and when the backend create
confirmation succeeds after such edits, the identifiers are updated but no
write is issued — the run's only request is `create_note`, and the buffer
holding the then-current contents stays dirty with no timer pending, until
some later flush picks it up. -/
theorem creating_substate_spec :
    (∀ (s : Sys) (mid : Sys → Sys) (r : Reply), isCreating s.st = true →
      flushRun mid r s = (s, [])) ∧
    (∀ (s : Sys) (b : Str), isCreating s.st = true →
      (setBody b s).pendingTimers = s.pendingTimers ∧
      (setBody b s).st.noteContent =
        s.st.noteContent.map (fun nc => { nc with body := b, isDirty := true })) ∧
    (∀ (s : Sys) (t b : Str) (now : Nat) (fr : Reply) (rp : Str),
      s.st.noteContent = none → s.pendingTimers = [] →
      (createNoteRun now id (fun x => setBody b (setTitle t x)) fr (Reply.ok rp) s).2 =
        [Req.createNote] ∧
      (createNoteRun now id (fun x => setBody b (setTitle t x)) fr
        (Reply.ok rp) s).1.st.noteContent = some ⟨t, b, true⟩ ∧
      (createNoteRun now id (fun x => setBody b (setTitle t x)) fr
        (Reply.ok rp) s).1.pendingTimers = [] ∧
      (createNoteRun now id (fun x => setBody b (setTitle t x)) fr
        (Reply.ok rp) s).1.st.selectedPath = some rp) := by
  refine ⟨fun s mid r h => ?_, fun s b h => ?_,
    fun s t b now fr rp h1 h2 => ?_⟩
  · simp [flushRun, flushRequest_none_of_creating _ h]
  · rw [setBody_creating b s h]
    exact ⟨rfl, rfl⟩
  · have hflush : flushRun id fr s = (s, []) := by
      cases hsel : s.st.selectedPath <;> simp [flushRun, flushRequest, h1]
    have hcr : isCreating (insertTemp now s.st) = true := by
      show isCreatingPath (tempPathOf now) = true
      exact isCreatingPath_tempPathOf now
    have key : createNoteRun now id (fun x => setBody b (setTitle t x)) fr
        (Reply.ok rp) s =
        ({ s with st := (createResumeOk (tempPathOf now) rp
            (setBodyState b (setTitleState t (insertTemp now s.st)))) },
         [Req.createNote]) := by
      simp only [createNoteRun, hflush]
      rw [setTitle_creating t _ hcr]
      rw [setBody_creating b _ (by rwa [isCreating_setTitleState])]
      rfl
    rw [key]
    exact ⟨rfl, rfl, h2, rfl⟩

/-- C3 counterexample: a note is created from a clean store and the user
types title `"T"` and body `"B"` while the creation request is in flight;
the backend then confirms with the real path.  The run's request log is
`[create_note]` — no write is issued after the confirmation — and the
buffer is left dirty with no debounce timer pending, contradicting the
claim that one write is issued immediately using the then-current buffer
contents. -/
theorem createNote_no_write_after_confirm_cex :
    (createNoteRun 5 id (fun x => setBody (str "B") (setTitle (str "T") x))
      Reply.err (Reply.ok (str "/notes/003-new.md")) sysNoSel).2 =
        [Req.createNote] ∧
    (createNoteRun 5 id (fun x => setBody (str "B") (setTitle (str "T") x))
      Reply.err (Reply.ok (str "/notes/003-new.md")) sysNoSel).1.st.noteContent =
        some ⟨str "T", str "B", true⟩ ∧
    (createNoteRun 5 id (fun x => setBody (str "B") (setTitle (str "T") x))
      Reply.err (Reply.ok (str "/notes/003-new.md")) sysNoSel).1.pendingTimers =
        [] ∧
    (createNoteRun 5 id (fun x => setBody (str "B") (setTitle (str "T") x))
      Reply.err (Reply.ok (str "/notes/003-new.md")) sysNoSel).1.st.selectedPath =
        some (str "/notes/003-new.md") := by
  refine ⟨by decide, by decide, by decide, by decide⟩

/-- C3 witness: the amended behaviour applied at a concrete creating state
and at a concrete creation run. -/
theorem creating_substate_spec_witness :
    flushRun id Reply.err sysMid7 = (sysMid7, []) ∧
    (createNoteRun 5 id
      (fun x => setBody (str "B") (setTitle (str "T") x))
      Reply.err (Reply.ok (str "/notes/003-new.md")) sysNoSel).1.st.noteContent =
        some ⟨str "T", str "B", true⟩ := by
  refine ⟨creating_substate_spec.1 sysMid7 id Reply.err (by decide), ?_⟩
  exact (creating_substate_spec.2.2 sysNoSel (str "T") (str "B") 5 Reply.err
    (str "/notes/003-new.md") rfl rfl).2.1

/-! ## C6: debounce -/

theorem setBody_not_creating (b : Str) (s : Sys) (h : isCreating s.st = false) :
    setBody b s = schedulePersist { s with st := setBodyState b s.st } := by
  have hc : isCreating (setBodyState b s.st) = false := by
    rwa [isCreating_setBodyState]
  simp [setBody, hc]

theorem schedulePersist_of_timerInv (s : Sys) (h : timerInv s) :
    schedulePersist s = { s with
      pendingTimers := [s.nextTimerId]
      saveTimeout := some s.nextTimerId
      nextTimerId := s.nextTimerId + 1 } := by
  cases hst : s.saveTimeout with
  | none =>
    have hp : s.pendingTimers = [] := by
      have h2 := h
      unfold timerInv at h2
      rw [hst] at h2
      exact h2
    simp [schedulePersist, hst, hp]
  | some tid =>
    have h2 := h
    unfold timerInv at h2
    rw [hst] at h2
    rcases h2 with h2 | h2 <;> simp [schedulePersist, hst, h2]

theorem setBody_step (b : Str) (s : Sys) (nc : NoteContent) (p : Str)
    (hnc : s.st.noteContent = some nc) (hsel : s.st.selectedPath = some p)
    (hcp : isCreatingPath p = false) (hinv : timerInv s) :
    setBody b s = ⟨⟨s.st.workspaces, s.st.activeWorkspaceId, s.st.notes,
      some p, some ⟨nc.title, b, true⟩⟩,
      some s.nextTimerId, [s.nextTimerId], s.nextTimerId + 1⟩ := by
  obtain ⟨⟨w, aw, ns, sel, ncf⟩, sv, pt, nt⟩ := s
  dsimp only at hnc hsel ⊢
  subst hnc hsel
  have hc : isCreating (⟨w, aw, ns, some p, some nc⟩ : NotesState) = false := hcp
  rw [setBody_not_creating b _ hc,
    schedulePersist_of_timerInv _ (by exact hinv)]
  rfl

theorem foldl_setBody_spec (bs : List Str) :
    ∀ (s : Sys) (nc : NoteContent) (p : Str) (d : Str), bs ≠ [] →
      timerInv s → s.st.noteContent = some nc → s.st.selectedPath = some p →
      isCreatingPath p = false →
      (bs.foldl (fun a b => setBody b a) s).st.noteContent =
        some ⟨nc.title, bs.getLastD d, true⟩ ∧
      (bs.foldl (fun a b => setBody b a) s).st.selectedPath = some p ∧
      (bs.foldl (fun a b => setBody b a) s).st.notes = s.st.notes ∧
      ∃ tid, (bs.foldl (fun a b => setBody b a) s).pendingTimers = [tid] ∧
        (bs.foldl (fun a b => setBody b a) s).saveTimeout = some tid := by
  induction bs with
  | nil => exact fun s nc p d hbs => absurd rfl hbs
  | cons b bs ih =>
    intro s nc p d hbs hinv hnc hsel hcp
    have hstep := setBody_step b s nc p hnc hsel hcp hinv
    cases bs with
    | nil =>
      simp only [List.foldl]
      rw [hstep]
      exact ⟨rfl, rfl, rfl, s.nextTimerId, rfl, rfl⟩
    | cons b' bs' =>
      simp only [List.foldl] at ih ⊢
      rw [hstep]
      have hih := ih ⟨⟨s.st.workspaces, s.st.activeWorkspaceId, s.st.notes,
          some p, some ⟨nc.title, b, true⟩⟩,
          some s.nextTimerId, [s.nextTimerId], s.nextTimerId + 1⟩
        ⟨nc.title, b, true⟩ p b (by simp) (Or.inr rfl) rfl rfl hcp
      exact ⟨hih.1, hih.2.1, hih.2.2.1, hih.2.2.2⟩

/-- C6: from a selected, non-creating document, any nonempty run of rapid
sequential `setBody` edits (each arriving inside the previous edit's quiet
period, so each reschedules the single debounce timer) leaves exactly one
pending timer; when that timer fires, exactly one `write_note` is issued
and it carries the final body, not any intermediate one, after which the
buffer is clean. -/
theorem debounce_spec (s : Sys) (nc : NoteContent) (p : Str) (bs : List Str)
    (hbs : bs ≠ []) (hinv : timerInv s) (hnc : s.st.noteContent = some nc)
    (hsel : s.st.selectedPath = some p) (hcp : isCreatingPath p = false) :
    ∃ tid,
      (bs.foldl (fun a b => setBody b a) s).pendingTimers = [tid] ∧
      (fireTimer tid id (Reply.ok p) (bs.foldl (fun a b => setBody b a) s)).2 =
        [Req.writeNote p (buildContent nc.title (bs.getLastD []))] ∧
      (fireTimer tid id (Reply.ok p)
        (bs.foldl (fun a b => setBody b a) s)).1.st.noteContent =
        some ⟨nc.title, bs.getLastD [], false⟩ ∧
      (fireTimer tid id (Reply.ok p)
        (bs.foldl (fun a b => setBody b a) s)).1.pendingTimers = [] := by
  obtain ⟨hcontent, hselp, hnotes, tid, hpt, hsv⟩ :=
    foldl_setBody_spec bs s nc p [] hbs hinv hnc hsel hcp
  have hcontains :
      (bs.foldl (fun a b => setBody b a) s).pendingTimers.contains tid = true := by
    rw [hpt]
    simp
  have hfilter :
      (bs.foldl (fun a b => setBody b a) s).pendingTimers.filter
        (fun t => t != tid) = [] := by
    rw [hpt]
    simp
  have hreq : flushRequest (bs.foldl (fun a b => setBody b a) s).st =
      some (p, buildContent nc.title (bs.getLastD [])) :=
    flushRequest_some _ ⟨nc.title, bs.getLastD [], true⟩ p hcontent hselp rfl hcp
  have hrun : fireTimer tid id (Reply.ok p) (bs.foldl (fun a b => setBody b a) s) =
      ({ bs.foldl (fun a b => setBody b a) s with
          pendingTimers := []
          st := flushResumeOk p p (bs.foldl (fun a b => setBody b a) s).st },
       [Req.writeNote p (buildContent nc.title (bs.getLastD []))]) := by
    simp only [fireTimer, hcontains, if_true, hfilter]
    simp [flushRun, hreq]
  refine ⟨tid, hpt, ?_, ?_, ?_⟩
  · rw [hrun]
  · rw [hrun]
    simp [flushResumeOk, hcontent]
  · rw [hrun]

/-- C6 witness: two rapid edits from a concrete clean state leave one
pending timer whose firing writes exactly the final body. -/
theorem debounce_spec_witness :
    ∃ tid,
      (([str "b1", str "b2"]).foldl (fun a b => setBody b a) sysClean).pendingTimers =
        [tid] ∧
      (fireTimer tid id (Reply.ok (str "/n/a.md"))
        (([str "b1", str "b2"]).foldl (fun a b => setBody b a) sysClean)).2 =
        [Req.writeNote (str "/n/a.md")
          (buildContent (str "T") (([str "b1", str "b2"]).getLastD []))] ∧
      (fireTimer tid id (Reply.ok (str "/n/a.md"))
        (([str "b1", str "b2"]).foldl (fun a b => setBody b a) sysClean)).1.st.noteContent =
        some ⟨str "T", ([str "b1", str "b2"]).getLastD [], false⟩ ∧
      (fireTimer tid id (Reply.ok (str "/n/a.md"))
        (([str "b1", str "b2"]).foldl (fun a b => setBody b a) sysClean)).1.pendingTimers =
        [] :=
  debounce_spec sysClean ⟨str "T", str "B0", false⟩ (str "/n/a.md")
    [str "b1", str "b2"] (by decide) rfl rfl rfl (by decide)

/-! ## C2: flush before navigation -/

/-- C2: with a dirty, non-creating selected document, `switchWorkspace`
issues exactly the flush's `write_note` (whatever its outcome) strictly
before the workspace-activation request and afterwards clears the selection
and buffer; `selectNote` and `createNote` likewise issue the flush write
strictly before their own request; and when `selectNote`'s read fails, the
completed flush's effect (clean buffer) is present while the selection is
unchanged — the flush ran to completion before any selection change. -/
theorem navigation_barrier_spec (s : Sys) (nc : NoteContent) (p : Str)
    (h1 : s.st.noteContent = some nc) (h2 : s.st.selectedPath = some p)
    (h3 : nc.isDirty = true) (h4 : isCreatingPath p = false) :
    (∀ (wid u : Str) (fr : Reply),
      (switchWorkspaceRun wid id id fr (Reply.ok u) s).2 =
        [Req.writeNote p (buildContent nc.title nc.body),
         Req.setActiveWorkspace wid]) ∧
    (∀ (wid u np : Str),
      (switchWorkspaceRun wid id id (Reply.ok np) (Reply.ok u) s).1.st.selectedPath
        = none ∧
      (switchWorkspaceRun wid id id (Reply.ok np) (Reply.ok u) s).1.st.noteContent
        = none ∧
      (switchWorkspaceRun wid id id (Reply.ok np) (Reply.ok u) s).1.st.activeWorkspaceId
        = some wid) ∧
    (∀ (q : Str) (fr rr : Reply),
      (selectNoteRun q id id fr rr s).2 =
        [Req.writeNote p (buildContent nc.title nc.body), Req.readNote q]) ∧
    (∀ q : Str,
      (selectNoteRun q id id (Reply.ok p) Reply.err s).1.st.noteContent =
        some ⟨nc.title, nc.body, false⟩ ∧
      (selectNoteRun q id id (Reply.ok p) Reply.err s).1.st.selectedPath = some p) ∧
    (∀ (now : Nat) (fr cr : Reply),
      (createNoteRun now id id fr cr s).2 =
        [Req.writeNote p (buildContent nc.title nc.body), Req.createNote]) := by
  have hreq := flushRequest_some s.st nc p h1 h2 h3 h4
  refine ⟨fun wid u fr => ?_, fun wid u np => ?_, fun q fr rr => ?_,
    fun q => ⟨?_, ?_⟩, fun now fr cr => ?_⟩
  · cases fr <;> simp [switchWorkspaceRun, flushRun, hreq]
  · refine ⟨?_, ?_, ?_⟩ <;> simp [switchWorkspaceRun, flushRun, hreq]
  · cases fr <;> cases rr <;> simp [selectNoteRun, flushRun, hreq]
  · simp [selectNoteRun, flushRun, hreq, flushResumeOk, h1]
  · simp [selectNoteRun, flushRun, hreq, flushResumeOk, h2]
  · cases fr <;> cases cr <;> simp [createNoteRun, flushRun, hreq]

/-- C2 witness: a dirty buffer at a concrete state; switching workspace
writes then activates then clears, and a failed `selectNote` read leaves
the completed flush visible with the selection unchanged. -/
theorem navigation_barrier_spec_witness :
    (switchWorkspaceRun (str "w2") id id (Reply.ok (str "/n/a.md"))
      (Reply.ok (str "")) sysA).2 =
      [Req.writeNote (str "/n/a.md") (str "# T\nB"),
       Req.setActiveWorkspace (str "w2")] ∧
    (switchWorkspaceRun (str "w2") id id (Reply.ok (str "/n/a.md"))
      (Reply.ok (str "")) sysA).1.st.selectedPath = none ∧
    (selectNoteRun (str "/n/q.md") id id (Reply.ok (str "/n/a.md"))
      Reply.err sysA).1.st.noteContent = some ⟨str "T", str "B", false⟩ := by
  have h := navigation_barrier_spec sysA ⟨str "T", str "B", true⟩ (str "/n/a.md")
    rfl rfl rfl (by decide)
  refine ⟨(h.1 (str "w2") (str "") (Reply.ok (str "/n/a.md"))).trans (by decide),
    (h.2.1 (str "w2") (str "") (str "/n/a.md")).1,
    (h.2.2.2.1 (str "/n/q.md")).1⟩

/-! ## C1: edits during an in-flight flush -/

/-- C1 failing run: from a clean selected document, `setBody "b1"` makes
the buffer dirty and schedules timer 0; the timer fires and `flush` issues
its write; while that write is in flight the user types `"b2"` (dirty flag
set, timer 1 scheduled); the write then completes and the success handler
unconditionally clears the dirty flag.  Afterwards the buffer holds `"b2"`
but is NOT dirty, so when timer 1 fires its flush is a no-op and `"b2"` is
never written — the edit is silently dropped, contrary to the claim.  The
final conjunct shows the code also lacks any in-flight join: a flush
invoked concurrently at the mid-flight state would issue a second parallel
write. -/
theorem lost_edit_during_inflight_flush :
    setBody (str "b1") sysClean = sysDirty1 ∧
    (fireTimer 0 (setBody (str "b2")) (Reply.ok (str "/n/a.md")) sysDirty1).2 =
      [Req.writeNote (str "/n/a.md") (str "# T\nb1")] ∧
    (fireTimer 0 (setBody (str "b2")) (Reply.ok (str "/n/a.md")) sysDirty1).1.st.noteContent =
      some ⟨str "T", str "b2", false⟩ ∧
    (fireTimer 0 (setBody (str "b2")) (Reply.ok (str "/n/a.md")) sysDirty1).1.pendingTimers =
      [1] ∧
    (fireTimer 1 id (Reply.ok (str "/n/a.md"))
      (fireTimer 0 (setBody (str "b2")) (Reply.ok (str "/n/a.md")) sysDirty1).1).2 =
      [] ∧
    (fireTimer 1 id (Reply.ok (str "/n/a.md"))
      (fireTimer 0 (setBody (str "b2")) (Reply.ok (str "/n/a.md")) sysDirty1).1).1.st.noteContent =
      some ⟨str "T", str "b2", false⟩ ∧
    flushRequest ((setBody (str "b2") sysDirty1).st) =
      some (str "/n/a.md", str "# T\nb2") := by
  refine ⟨by decide, by decide, by decide, by decide, by decide, by decide, by decide⟩
